import Mathlib

/-!
Verification of pingora-proxy-manager against its specification.

The data-plane core (filter chain, certificate catalog, snapshot
publisher, ACME worker) is a Rust backend whose sources are not part of
the `src/` tree here; those parts are modelled from the specification
text, as noted on each definition.  The admin frontend (TypeScript) is
present and its relevant functions are embedded directly.

Strings are modelled as `List Char` (written `Str`), matching the
character-sequence semantics of both Rust and JavaScript strings for the
operations used here (prefix stripping, splitting on a separator,
trimming, concatenation).
-/

/-- Character strings, modelled as lists of characters. -/
abbrev Str := List Char

/-- Replace the first occurrence of the pattern `pat` in `s` by `rep`.
Positions are scanned left to right; if `pat` occurs nowhere, `s` is
returned unchanged.  (Counterpart of Rust `replacen(pat, rep, 1)` /
the spec's `replaceFirst`.) -/
def replFirst (s pat rep : Str) : Str :=
  match s with
  | [] => []
  | c :: rest =>
    if pat.isPrefixOf (c :: rest) then rep ++ (c :: rest).drop pat.length
    else c :: replFirst rest pat rep

/-- Modelled from the spec: the Location-rewrite path transformation of
the proxy engine (backend source absent from the tree).  §8: for a
request path with matched location path `p` and `rewrite = true`, the
path forwarded upstream is `("/" + path[len(p):]).replaceFirst("//", "/")`;
§4.2 phrases the same step as: remove the matched prefix, ensure the
result starts with `/`, an empty result becomes `/`. -/
def rewritePath (p path : Str) : Str :=
  replFirst ('/' :: path.drop p.length) ['/', '/'] ['/']

/-!
## Admin surface: upstream target CSV handling

Embedding of `getTargets` / `setTargets` from
`src/frontend/src/components/hosts/AddHostDialog.tsx`:

    const getTargets = () => {
      if (!newHost.target) return [""];
      return newHost.target.split(',').map(t => t.trim());
    };
    const setTargets = (targets: string[]) => {
      setNewHost({ ...newHost, target: targets.join(',') });
    };
-/

/-- JavaScript white-space characters relevant to `String.prototype.trim`
(space, tab, line feed, carriage return, vertical tab, form feed). -/
def jsSpace (c : Char) : Bool :=
  c = ' ' || c = '\t' || c = '\n' || c = '\r' || c = '\x0b' || c = '\x0c'

/-- JavaScript `s.trim()`: drop white space from both ends. -/
def trimStr (s : Str) : Str :=
  ((s.dropWhile jsSpace).reverse.dropWhile jsSpace).reverse

/-- JavaScript `s.split(',')` (single-character separator): the comma-
separated fields of `s`, in order; the empty string yields `[""]`. -/
def splitComma : Str → List Str
  | [] => [[]]
  | c :: cs =>
    let r := splitComma cs
    if c = ',' then [] :: r
    else (c :: r.headI) :: r.tail

/-- JavaScript `targets.join(',')`. -/
def joinComma : List Str → Str
  | [] => []
  | [a] => a
  | a :: b :: rest => a ++ ',' :: joinComma (b :: rest)

/-- `getTargets` of the Add Host dialog, as a function of the stored
`target` field: an empty (falsy) field yields `[""]`, otherwise the
comma-split fields, each trimmed. -/
def getTargets (target : Str) : List Str :=
  if target = [] then [[]] else (splitComma target).map trimStr

/-- `setTargets` of the Add Host dialog: the stored `target` field after
`setTargets ts` is the comma-join of `ts`. -/
def setTargets (ts : List Str) : Str := joinComma ts

/-!
## Admin surface: Add Host submission (`handleAddHost`)

Embedding of `handleAddHost` from
`src/frontend/src/components/hosts/AddHostDialog.tsx` (lines 81-130):
in bulk mode the bulk-domains text is split on commas/newlines, trimmed,
empties dropped, and one payload per domain is submitted; in single mode
one payload is submitted unless the domain field is empty.  Every
payload replaces an empty `target` by `"127.0.0.1:8080"`, an empty
`redirect_to` by `null`, and an `access_list_id` of `0` by `null`.
-/

/-- Generic single-character split, the semantics of JavaScript
`s.split(sep)` for a character-class separator: fields between
separator occurrences, in order. -/
def splitOnPred (p : Char → Bool) : Str → List Str
  | [] => [[]]
  | c :: cs =>
    let r := splitOnPred p cs
    if p c then [] :: r else (c :: r.headI) :: r.tail

/-- The `newHost` dialog state of `AddHostDialog.tsx` (all fields are
strings/booleans/null exactly as held in the React state). -/
structure NewHostForm where
  domain : Str
  target : Str
  scheme : Str
  ssl_forced : Bool
  verify_ssl : Bool
  upstream_sni : Str
  redirect_to : Str
  redirect_status : Nat
  access_list_id : Option Int
deriving DecidableEq, Repr

/-- A host payload as submitted by `addHostMutation.mutate`:
`redirect_to` and `access_list_id` may be `null` (`Option`). -/
structure HostPayload where
  domain : Str
  target : Str
  scheme : Str
  ssl_forced : Bool
  verify_ssl : Bool
  upstream_sni : Str
  redirect_to : Option Str
  redirect_status : Nat
  access_list_id : Option Int
deriving DecidableEq, Repr

/-- The `hostPayload` object literal built inside `handleAddHost`:
`{...newHost, domain, target: newHost.target || "127.0.0.1:8080",
redirect_to: newHost.redirect_to || null,
access_list_id: newHost.access_list_id === 0 ? null :
newHost.access_list_id}`. -/
def mkHostPayload (f : NewHostForm) (domain : Str) : HostPayload :=
  { domain := domain
    target := if f.target = [] then "127.0.0.1:8080".toList else f.target
    scheme := f.scheme
    ssl_forced := f.ssl_forced
    verify_ssl := f.verify_ssl
    upstream_sni := f.upstream_sni
    redirect_to := if f.redirect_to = [] then none else some f.redirect_to
    redirect_status := f.redirect_status
    access_list_id := if f.access_list_id = some 0 then none
      else f.access_list_id }

/-- `handleAddHost`, returning the list of payloads passed to
`addHostMutation.mutate` (empty when validation stops the submission). -/
def handleAddHost (bulkMode : Bool) (bulkDomains : Str)
    (f : NewHostForm) : List HostPayload :=
  if bulkMode then
    let domains := (((splitOnPred (fun c => c = ',' || c = '\n') bulkDomains).map
      trimStr).filter (fun d => 0 < d.length))
    domains.map (mkHostPayload f)
  else if f.domain = [] then []
  else [mkHostPayload f f.domain]

/-!
## Admin surface: `api.request` (`src/frontend/src/lib/api.ts`)

The response handling of the shared fetch wrapper:

    if (res.status === 401) { api.removeToken(); ... throw new ApiError(401, "Unauthorized"); }
    if (!res.ok) { throw new ApiError(res.status, res.statusText); }
    if (res.status === 204) return null;
    const contentType = res.headers.get("content-type");
    if (contentType && contentType.includes("application/json")) return res.json();
    return res.text();

The stored token (`localStorage`) is threaded through explicitly; the
`window.location.href` navigation is a browser side effect outside the
returned value.
-/

/-- The `ApiError` class: an error carrying the HTTP status. -/
structure ApiError where
  status : Nat
  message : Str
deriving DecidableEq, Repr

/-- The value produced by `api.request`: `null` (for 204), a parsed JSON
body, or a text body. -/
inductive ApiValue where
  | null
  | json (body : Str)
  | text (body : Str)
deriving DecidableEq, Repr

/-- The relevant part of a `fetch` `Response`. -/
structure FetchResponse where
  status : Nat
  statusText : Str
  contentType : Option Str
  body : Str
deriving DecidableEq, Repr

/-- `Response.ok` of the Fetch API: status in the range 200-299. -/
def resOk (status : Nat) : Bool := 200 ≤ status && status ≤ 299

/-- JavaScript `s.includes(pat)`: `pat` occurs as a contiguous substring
of `s`. -/
def hasSub (s pat : Str) : Bool :=
  match s with
  | [] => decide (pat = [])
  | c :: cs => pat.isPrefixOf (c :: cs) || hasSub cs pat

/-- `contentType && contentType.includes("application/json")`: the
header value is present, truthy (non-empty), and contains the substring
`application/json`. -/
def contentTypeIsJson (ct : Option Str) : Bool :=
  match ct with
  | none => false
  | some s => !(s = []) && hasSub s "application/json".toList

/-- `api.request`, as a function of the stored token and the received
response: returns the token store after the call together with either a
thrown `ApiError` or the produced value. -/
def apiRequest (token : Option Str) (res : FetchResponse) :
    Option Str × Except ApiError ApiValue :=
  if res.status = 401 then
    (none, Except.error ⟨401, "Unauthorized".toList⟩)
  else if !resOk res.status then
    (token, Except.error ⟨res.status, res.statusText⟩)
  else if res.status = 204 then
    (token, Except.ok ApiValue.null)
  else if contentTypeIsJson res.contentType then
    (token, Except.ok (ApiValue.json res.body))
  else
    (token, Except.ok (ApiValue.text res.body))

/-!
## Admin surface: certificate-request submission

Embeddings of the two certificate-request handlers.

`IssueCertDialog.tsx` (lines 41-63): the select state `providerId` is
either the literal string `"http"` (HTTP-01) or a DNS provider id
rendered with `toString()`; the submission is skipped when the domain is
absent/empty or the email is empty, and otherwise carries
`provider_id: providerId === "http" ? undefined : Number(providerId)`.

`CertificatesTab.tsx` (lines 80-94): `handleRequest` submits `newCert`
verbatim unless its domain or email is empty.

Neither handler inspects the domain for a leading `*.`.
-/

/-- A certificate-request job as posted to `/api/certs`. -/
structure CertRequest where
  domain : Str
  email : Str
  provider_id : Option Int
deriving DecidableEq, Repr

/-- `Number(s)` on the canonical decimal strings produced by
`id.toString()` in the provider select. -/
def strToNat (s : Str) : Nat :=
  s.foldl (fun n c => n * 10 + (c.toNat - '0'.toNat)) 0

/-- `handleRequest` of `IssueCertDialog.tsx`: `none` when the submission
is skipped (missing domain / empty email), otherwise the job passed to
`requestCert`. -/
def issueCertSubmit (domain : Option Str) (email : Str)
    (providerId : Str) : Option CertRequest :=
  match domain with
  | none => none
  | some d =>
    if d = [] then none
    else if email = [] then none
    else some { domain := d, email := email,
                provider_id :=
                  if providerId = "http".toList then none
                  else some (strToNat providerId) }

/-- `handleRequest` of `CertificatesTab.tsx`: submits `newCert`
unchanged unless its domain or email is empty. -/
def certsTabSubmit (newCert : CertRequest) : Option CertRequest :=
  if newCert.domain = [] ∨ newCert.email = [] then none else some newCert

/-!
## Data-plane core (modelled from the spec)

The Rust data plane (snapshot, filter chain, certificate catalog,
publisher) is not part of the source tree here; the following
definitions model it from the specification (§3, §4.1-4.3, §7).
IPv4 addresses are modelled as natural numbers below `2^32`.
-/

/-- Modelled from the spec: the `http`/`https` scheme enumeration of the
data model (§3, backend source absent). -/
inductive Scheme where
  | http
  | https
deriving DecidableEq, Repr

/-- Modelled from the spec: a Location row (§3): path prefix, upstream
list, scheme, optional upstream SNI, optional verify flag, and the
`rewrite` flag (strip the matched prefix before forwarding). -/
structure Location where
  path : Str
  upstreams : List Str
  scheme : Scheme
  upstream_sni : Option Str
  verify_ssl : Bool
  rewrite : Bool
deriving DecidableEq, Repr

/-- Modelled from the spec: a Host row (§3): case-folded domain, default
upstream list, scheme, SNI/verify options, `ssl_forced`, optional
redirect target and status, optional access-list reference, ordered
Locations.  (Header rules are omitted: no claim concerns them.) -/
structure Host where
  domain : Str
  upstreams : List Str
  scheme : Scheme
  upstream_sni : Option Str
  verify_ssl : Bool
  ssl_forced : Bool
  redirect_to : Option Str
  redirect_status : Nat
  access_list_id : Option Nat
  locations : List Location
deriving DecidableEq, Repr

/-- Modelled from the spec: `allow`/`deny` of an IP rule (§3). -/
inductive IpAction where
  | allow
  | deny
deriving DecidableEq, Repr

/-- Modelled from the spec: the address pattern of an IP rule — a CIDR
block or a literal address (§3). -/
inductive IpPattern where
  | literal (addr : Nat)
  | cidr (base : Nat) (len : Nat)
deriving DecidableEq, Repr

/-- Modelled from the spec: one ordered IP rule of an Access List. -/
structure IpRule where
  pat : IpPattern
  action : IpAction
deriving DecidableEq, Repr

/-- Modelled from the spec: an Access List (§3): id, name, client
credentials (username/password verifier pairs), ordered IP rules. -/
structure AccessList where
  id : Nat
  name : Str
  clients : List (Str × Str)
  ips : List IpRule
deriving DecidableEq, Repr

/-- Modelled from the spec: the settings record carried by a snapshot
(§4.1): custom error-page HTML and the trusted-proxy IP set. -/
structure Settings where
  error_page : Str
  trusted_proxies : List Nat
deriving DecidableEq, Repr

/-- Modelled from the spec: the immutable Config Snapshot (§4.1): host
table, Access-List table, settings, and the ACME worker's token store
read by filter 1.  (The stream table and certificate catalog are
modelled separately.) -/
structure Snapshot where
  hosts : List Host
  access_lists : List AccessList
  settings : Settings
  acme_tokens : List (Str × Str)
deriving DecidableEq, Repr

/-- Modelled from the spec: the per-request data consumed by the filter
chain (§4.2): method, `Host` header, path and raw query suffix, the
socket peer address, the parsed `X-Forwarded-For` entries and
`X-Forwarded-Proto`, the connection scheme, and decoded Basic-Auth
credentials if any. -/
structure Request where
  method : Str
  hostHeader : Str
  path : Str
  query : Str
  peerIp : Nat
  xff : List Nat
  xfProto : Option Scheme
  connScheme : Scheme
  auth : Option (Str × Str)
deriving DecidableEq, Repr

/-- Modelled from the spec: the decision the filter chain reaches for a
request — a locally produced response, a redirect, an ACME challenge
answer, or dispatch to a chosen upstream endpoint. -/
inductive Outcome where
  | respond (status : Nat) (body : Str)
  | redirect (status : Nat) (location : Str)
  | acmeChallenge (keyAuth : Str)
  | forward (endpoint : Str) (scheme : Scheme) (path : Str) (query : Str)
deriving DecidableEq, Repr

/-- Case folding of host names (§3: domains are compared case-folded). -/
def caseFold (s : Str) : Str := s.map Char.toLower

/-- Modelled from the spec (§4.2 host resolution): the request's host
key — the `Host` header, lowercased, port stripped. -/
def hostKeyOf (r : Request) : Str :=
  caseFold (r.hostHeader.takeWhile (fun c => !(c = ':')))

/-- Modelled from the spec (§4.1): exact-match lookup in the snapshot's
hostname index. -/
def findHost (snap : Snapshot) (key : Str) : Option Host :=
  snap.hosts.find? (fun h => caseFold h.domain = key)

/-- Modelled from the spec (§4.1): the snapshot's id → Access-List
index. -/
def findAcl (snap : Snapshot) (id : Nat) : Option AccessList :=
  snap.access_lists.find? (fun a => a.id = id)

/-- Decimal digits of a natural number. -/
def natStr (n : Nat) : Str := Nat.toDigits 10 n

/-- Standard reason phrases for the statuses the chain produces. -/
def reasonOf (n : Nat) : Str :=
  if n = 301 then "Moved Permanently".toList
  else if n = 401 then "Unauthorized".toList
  else if n = 403 then "Forbidden".toList
  else if n = 404 then "Not Found".toList
  else if n = 502 then "Bad Gateway".toList
  else if n = 504 then "Gateway Timeout".toList
  else "Error".toList

/-- Modelled from the spec (§7): the built-in minimal HTML error page
used when the operator template is empty. -/
def builtinErrorPage (status : Nat) : Str :=
  "<html><body><h1>".toList ++ natStr status ++ ' ' :: reasonOf status
    ++ "</h1></body></html>".toList

/-- Modelled from the spec (§7): every 4xx/5xx body is the settings'
error-page template with the literal `%%STATUS%%` replaced by the
numeric status and reason phrase; an empty template falls back to the
built-in page. -/
def renderError (s : Settings) (status : Nat) : Str :=
  if s.error_page = [] then builtinErrorPage status
  else replFirst s.error_page "%%STATUS%%".toList
    (natStr status ++ ' ' :: reasonOf status)

/-- The fixed ACME HTTP-01 challenge path prefix. -/
def acmePathStart : Str := "/.well-known/acme-challenge/".toList

/-- Modelled from the spec (§4.2 filter 1): a GET whose path begins with
the ACME challenge prefix. -/
def isAcmeRequest (r : Request) : Bool :=
  (r.method = "GET".toList) && acmePathStart.isPrefixOf r.path

/-- Modelled from the spec (§4.2 filter 1): serve the challenge token
from the worker's token store, keyed by the URL path suffix; a missing
token yields 404. -/
def acmeServe (snap : Snapshot) (r : Request) : Outcome :=
  match snap.acme_tokens.find?
      (fun e => e.1 = r.path.drop acmePathStart.length) with
  | some e => Outcome.acmeChallenge e.2
  | none => Outcome.respond 404 (renderError snap.settings 404)

/-- Modelled from the spec (§4.2 filter 2): the effective client IP —
the left-most `X-Forwarded-For` entry when the socket peer is a trusted
proxy, the peer itself otherwise. -/
def effClientIp (snap : Snapshot) (r : Request) : Nat :=
  if snap.settings.trusted_proxies.contains r.peerIp then
    r.xff.headD r.peerIp
  else r.peerIp

/-- Modelled from the spec (§4.2 filter 2): the effective scheme —
`X-Forwarded-Proto` when the peer is trusted, else the connection
scheme. -/
def effScheme (snap : Snapshot) (r : Request) : Scheme :=
  if snap.settings.trusted_proxies.contains r.peerIp then
    r.xfProto.getD r.connScheme
  else r.connScheme

/-- Modelled from the spec (§3): whether an IP matches a rule pattern —
equality for a literal, shared network bits within the mask length for
CIDR (IPv4, 32-bit). -/
def ipMatches (pat : IpPattern) (ip : Nat) : Bool :=
  match pat with
  | IpPattern.literal addr => ip = addr
  | IpPattern.cidr base len => ip / 2 ^ (32 - len) = base / 2 ^ (32 - len)

def ruleMatches (rule : IpRule) (ip : Nat) : Bool := ipMatches rule.pat ip

/-- Modelled from the spec (§4.2 filter 3): top-to-bottom evaluation of
the IP rules; the first matching rule's action, if any. -/
def evalIpRules : List IpRule → Nat → Option IpAction
  | [], _ => none
  | r :: rest, ip =>
    if ruleMatches r ip then some r.action else evalIpRules rest ip

/-- Result of the IP part of the ACL filter: proceed, 403, or skipped
entirely (no IP rules). -/
inductive AclIpResult where
  | proceed
  | forbidden
  | skipped
deriving DecidableEq, Repr

/-- Modelled from the spec (§4.2 filter 3): no IP rules → skip; first
match wins (`deny` → 403, `allow` → proceed); no match with at least one
`allow` rule present → 403 (default-deny when a whitelist exists). -/
def aclIpCheck (rules : List IpRule) (ip : Nat) : AclIpResult :=
  if rules.isEmpty then AclIpResult.skipped
  else
    match evalIpRules rules ip with
    | some IpAction.deny => AclIpResult.forbidden
    | some IpAction.allow => AclIpResult.proceed
    | none =>
      if rules.any (fun r => r.action = IpAction.allow) then
        AclIpResult.forbidden
      else AclIpResult.proceed

/-- Overall ACL decision for a request. -/
inductive AclDecision where
  | proceed
  | forbidden
  | unauthorized
deriving DecidableEq, Repr

/-- Modelled from the spec (§4.2 filter 3): the IP check, then — if the
list has client credentials — Basic-Auth validation (failure → 401). -/
def aclCheck (acl : AccessList) (ip : Nat) (auth : Option (Str × Str)) :
    AclDecision :=
  match aclIpCheck acl.ips ip with
  | AclIpResult.forbidden => AclDecision.forbidden
  | _ =>
    if acl.clients.isEmpty then AclDecision.proceed
    else
      match auth with
      | none => AclDecision.unauthorized
      | some cred =>
        if acl.clients.contains cred then AclDecision.proceed
        else AclDecision.unauthorized

/-- Modelled from the spec (§4.2 filter 3): a host with no access-list
reference (or a dangling one) imposes no ACL constraint. -/
def hostAclDecision (snap : Snapshot) (host : Host) (ip : Nat)
    (auth : Option (Str × Str)) : AclDecision :=
  match host.access_list_id with
  | none => AclDecision.proceed
  | some id =>
    match findAcl snap id with
    | none => AclDecision.proceed
    | some acl => aclCheck acl ip auth

/-- Modelled from the spec (§4.2 filter 6): among the Locations whose
path is a prefix of the request path, the longest one, ties broken by
declaration order. -/
def pickLocation (locs : List Location) (path : Str) : Option Location :=
  locs.foldl
    (fun best l =>
      if l.path.isPrefixOf path then
        match best with
        | none => some l
        | some b =>
          if b.path.length < l.path.length then some l else some b
      else best)
    none

/-- Modelled from the spec (§4.2 filters 6-7): the effective upstream
list, forwarded path (rewritten when the chosen Location has `rewrite`),
and scheme — the chosen Location's, or the Host's default branch. -/
def effectiveRoute (host : Host) (path : Str) : List Str × Str × Scheme :=
  match pickLocation host.locations path with
  | some l =>
    (l.upstreams, if l.rewrite then rewritePath l.path path else path,
      l.scheme)
  | none => (host.upstreams, path, host.scheme)

/-- Modelled from the spec (§4.2 filter 7): pick one endpoint uniformly
at random, the randomness supplied as a seed. -/
def pickUpstream (ups : List Str) (seed : Nat) : Str :=
  ups.getD (seed % ups.length) []

/-- Modelled from the spec (§4.2): the ordered filter chain — ACME
challenge, host resolution (404 when unknown), trusted-proxy
normalization, ACL (403/401), forced HTTPS (301), configured redirect,
location match, upstream selection (502 on an empty upstream list). -/
def filterChain (snap : Snapshot) (r : Request) (seed : Nat) : Outcome :=
  if isAcmeRequest r then acmeServe snap r
  else
    match findHost snap (hostKeyOf r) with
    | none => Outcome.respond 404 (renderError snap.settings 404)
    | some host =>
      match hostAclDecision snap host (effClientIp snap r) r.auth with
      | AclDecision.forbidden =>
        Outcome.respond 403 (renderError snap.settings 403)
      | AclDecision.unauthorized =>
        Outcome.respond 401 (renderError snap.settings 401)
      | AclDecision.proceed =>
        if host.ssl_forced = true ∧ effScheme snap r = Scheme.http then
          Outcome.redirect 301
            ("https://".toList ++ hostKeyOf r ++ r.path ++ r.query)
        else if !(host.redirect_to.getD [] = []) then
          Outcome.redirect host.redirect_status (host.redirect_to.getD [])
        else
          match effectiveRoute host r.path with
          | (ups, fpath, sch) =>
            if ups.isEmpty then
              Outcome.respond 502 (renderError snap.settings 502)
            else Outcome.forward (pickUpstream ups seed) sch fpath r.query

/-!
## Certificate catalog and SNI selection (modelled from the spec, §4.3)
-/

/-- An in-memory TLS credential: PEM chain and key bytes. -/
structure TlsCert where
  chain : Str
  key : Str
deriving DecidableEq, Repr

/-- Modelled from the spec (§4.3): the catalog lookup on its case-folded
keys. -/
def lookupCert (catalog : List (Str × TlsCert)) (k : Str) : Option TlsCert :=
  (catalog.find? (fun e => e.1 = k)).map Prod.snd

/-- Modelled from the spec (§4.3): the wildcard key consulted for a
server name — for `a.b.c`, the key `*.b.c` (the first label replaced by
`*`); a name without a dot has no wildcard key. -/
def wildcardKeyOf (s : Str) : Option Str :=
  let rest := s.dropWhile (fun c => !(c = '.'))
  if rest = [] then none else some ('*' :: rest)

/-- Modelled from the spec (§4.3, backend source absent): SNI
certificate selection — exact match first, then the wildcard key, then
the pre-generated fallback self-signed certificate. -/
def selectCert (catalog : List (Str × TlsCert)) (fallback : TlsCert)
    (serverName : Str) : TlsCert :=
  let n := caseFold serverName
  match lookupCert catalog n with
  | some c => c
  | none =>
    match wildcardKeyOf n with
    | some wk => (lookupCert catalog wk).getD fallback
    | none => fallback

/-!
## Persistent store, admin mutations and the publisher (modelled from
the spec, §3 invariants and §4.1)
-/

/-- Modelled from the spec (§2, §3): the rows of the persistent store
that the publisher reads (hosts, access lists, settings). -/
structure Store where
  hosts : List Host
  access_lists : List AccessList
  settings : Settings
deriving DecidableEq, Repr

/-- The store of a fresh installation: no hosts, no access lists. -/
def emptyStore : Store :=
  { hosts := []
    access_lists := []
    settings := { error_page := [], trusted_proxies := [] } }

/-- Modelled from the spec (§6): the admin mutations that write the
store rows relevant to referential consistency. -/
inductive AdminMutation where
  | upsertHost (h : Host)
  | deleteHost (domain : Str)
  | createAccessList (a : AccessList)
  | deleteAccessList (id : Nat)
deriving DecidableEq, Repr

/-- An access list with the given id exists in the store. -/
def aclExists (s : Store) (id : Nat) : Bool :=
  s.access_lists.any (fun a => a.id = id)

/-- A host row's access-list reference, when set, names an existing
access list. -/
def hostRefValid (s : Store) (h : Host) : Bool :=
  match h.access_list_id with
  | none => true
  | some id => aclExists s id

/-- Some host references the given access list. -/
def aclReferenced (s : Store) (id : Nat) : Bool :=
  s.hosts.any (fun h => h.access_list_id = some id)

/-- Modelled from the spec: the store-level effect of each admin
mutation.  Host upsert is validated (§4.1/§7 ConfigInvalid: a mutation
producing an invalid snapshot is refused with a 4xx) so a dangling
access-list reference is rejected; access-list deletion is refused while
any host references the list (§3 invariant: a referenced Access List
cannot be deleted). -/
def applyMutation (s : Store) : AdminMutation → Store
  | AdminMutation.upsertHost h =>
    if hostRefValid s h then
      { s with hosts :=
          h :: s.hosts.filter (fun x => !(caseFold x.domain = caseFold h.domain)) }
    else s
  | AdminMutation.deleteHost d =>
    { s with hosts := s.hosts.filter (fun x => !(caseFold x.domain = caseFold d)) }
  | AdminMutation.createAccessList a =>
    { s with access_lists := a :: s.access_lists.filter (fun x => !(x.id = a.id)) }
  | AdminMutation.deleteAccessList id =>
    if aclReferenced s id then s
    else { s with access_lists := s.access_lists.filter (fun x => !(x.id = id)) }

/-- Modelled from the spec (§4.1, backend source absent): `reconcile()`
reads all rows in one transaction and builds the new snapshot in full;
the ACME token store is owned by the worker and passed through. -/
def reconcile (s : Store) (tokens : List (Str × Str)) : Snapshot :=
  { hosts := s.hosts
    access_lists := s.access_lists
    settings := s.settings
    acme_tokens := tokens }

/-- Referential consistency of a snapshot: every host's set access-list
reference resolves in the snapshot's id → Access-List index. -/
def snapshotConsistent (snap : Snapshot) : Prop :=
  ∀ h ∈ snap.hosts, ∀ id, h.access_list_id = some id →
    (findAcl snap id).isSome = true

/-- Referential consistency of the store. -/
def storeConsistent (s : Store) : Prop :=
  ∀ h ∈ s.hosts, ∀ id, h.access_list_id = some id → aclExists s id = true

/-!
## Demo fixtures (concrete hosts/snapshots used by the witnesses)
-/

/-- The Host of end-to-end scenario 2 (§8): `b.test` with forced HTTPS
and a configured redirect. -/
def bTestHost : Host :=
  { domain := "b.test".toList
    upstreams := ["10.0.0.9:80".toList]
    scheme := Scheme.http
    upstream_sni := none
    verify_ssl := true
    ssl_forced := true
    redirect_to := some "https://c.test".toList
    redirect_status := 301
    access_list_id := none
    locations := [] }

/-- A host whose effective upstream list is empty. -/
def emptyUpHost : Host :=
  { domain := "d502.test".toList
    upstreams := []
    scheme := Scheme.http
    upstream_sni := none
    verify_ssl := true
    ssl_forced := false
    redirect_to := none
    redirect_status := 301
    access_list_id := none
    locations := [] }

/-- Demo settings with a custom error page template. -/
def demoSettings : Settings :=
  { error_page := "<h1>%%STATUS%%</h1>".toList
    trusted_proxies := [] }

/-- Demo snapshot holding the two demo hosts. -/
def demoSnapshot : Snapshot :=
  { hosts := [bTestHost, emptyUpHost]
    access_lists := []
    settings := demoSettings
    acme_tokens := [] }

/-- The request of end-to-end scenario 2 (§8):
GET `http://b.test/y?z=1`. -/
def demoRequestB : Request :=
  { method := "GET".toList
    hostHeader := "b.test".toList
    path := "/y".toList
    query := "?z=1".toList
    peerIp := 3232235777
    xff := []
    xfProto := none
    connScheme := Scheme.http
    auth := none }

/-- A plain GET to `d502.test`. -/
def demoRequestD : Request :=
  { method := "GET".toList
    hostHeader := "d502.test".toList
    path := "/x".toList
    query := []
    peerIp := 3232235777
    xff := []
    xfProto := none
    connScheme := Scheme.http
    auth := none }

/-- The IP rule of end-to-end scenario 5 (§8): `10.0.0.0/8 allow`
(`10.0.0.0` is `167772160`). -/
def demoAllowRule : IpRule :=
  { pat := IpPattern.cidr 167772160 8, action := IpAction.allow }

/-!
## Theorems
-/

theorem replFirst_nil (pat rep : Str) : replFirst [] pat rep = [] := rfl

theorem rewritePath_head (p path : Str) :
    ∃ t, rewritePath p path = '/' :: t := by
  unfold rewritePath replFirst
  by_cases h : List.isPrefixOf ['/', '/'] ('/' :: path.drop p.length)
  · simp only [h, if_pos]
    exact ⟨(path.drop p.length).drop 1, by simp⟩
  · simp only [h, if_neg, not_false_iff]
    exact ⟨_, rfl⟩

/-- C1: for a request path matched by a rewriting Location with path
`p`, the forwarded path is exactly the spec's
`("/" + path[len(p):]).replaceFirst("//", "/")`, it is non-empty, it
starts with `'/'`, and an empty stripped remainder is forwarded as
`"/"`. -/
theorem rewrite_forwarded_path_spec (p path : Str) (_hp : p.isPrefixOf path) :
    rewritePath p path
        = replFirst ('/' :: path.drop p.length) ['/', '/'] ['/']
      ∧ rewritePath p path ≠ []
      ∧ (∃ t, rewritePath p path = '/' :: t)
      ∧ (path.drop p.length = [] → rewritePath p path = ['/']) := by
  obtain ⟨t, ht⟩ := rewritePath_head p path
  refine ⟨rfl, by simp [ht], ⟨t, ht⟩, ?_⟩
  intro h0
  unfold rewritePath
  rw [h0]
  decide

theorem rewrite_forwarded_path_spec_witness :
    List.isPrefixOf "/api".toList "/api/v1/users".toList
      ∧ rewritePath "/api".toList "/api/v1/users".toList = "/v1/users".toList := by
  refine ⟨by decide, ?_⟩
  have h := rewrite_forwarded_path_spec "/api".toList "/api/v1/users".toList (by decide)
  rw [h.1]
  decide

theorem splitComma_no_comma (s : Str) (h : ',' ∉ s) : splitComma s = [s] := by
  induction s with
  | nil => rfl
  | cons c cs ih =>
    have hc : ¬(c = ',') := fun e => h (by simp [e])
    have hcs : ',' ∉ cs := fun m => h (List.mem_cons_of_mem _ m)
    simp [splitComma, hc, ih hcs]

theorem splitComma_append (a rest : Str) (h : ',' ∉ a) :
    splitComma (a ++ ',' :: rest) = a :: splitComma rest := by
  induction a with
  | nil => simp [splitComma]
  | cons c a ih =>
    have hc : ¬(c = ',') := fun e => h (by simp [e])
    have ha : ',' ∉ a := fun m => h (List.mem_cons_of_mem _ m)
    simp [splitComma, hc, ih ha]

theorem splitComma_joinComma (ts : List Str) (hne : ts ≠ [])
    (h : ∀ t ∈ ts, ',' ∉ t) : splitComma (joinComma ts) = ts := by
  induction ts with
  | nil => exact absurd rfl hne
  | cons a rest ih =>
    cases rest with
    | nil => simpa [joinComma] using splitComma_no_comma a (h a (by simp))
    | cons b rest2 =>
      have ha : ',' ∉ a := h a (by simp)
      have : joinComma (a :: b :: rest2) = a ++ ',' :: joinComma (b :: rest2) := rfl
      rw [this, splitComma_append a _ ha,
        ih (by simp) (fun t ht => h t (by simp [ht]))]

theorem map_trim_of_trimmed (ts : List Str) (h : ∀ t ∈ ts, trimStr t = t) :
    ts.map trimStr = ts := by
  induction ts with
  | nil => rfl
  | cons a rest ih =>
    simp only [List.map_cons, h a (by simp),
      ih (fun t ht => h t (by simp [ht]))]

/-- C8 (amended): for every NON-EMPTY list of target strings that are
non-empty, comma-free and trimmed, reading the stored CSV field back
after `setTargets` returns exactly the list: the split/join of a host's
upstream endpoint list is a round trip in the admin surface. -/
theorem targets_roundtrip (ts : List Str) (hne : ts ≠ [])
    (h : ∀ t ∈ ts, t ≠ [] ∧ ',' ∉ t ∧ trimStr t = t) :
    getTargets (setTargets ts) = ts := by
  have hjoin : setTargets ts ≠ [] := by
    match ts, hne with
    | [a], _ =>
      exact fun e => (h a (by simp)).1 e
    | a :: b :: rest, _ =>
      intro e
      rw [show setTargets (a :: b :: rest) = a ++ ',' :: joinComma (b :: rest)
        from rfl] at e
      simp at e
  rw [getTargets, if_neg hjoin]
  rw [show setTargets ts = joinComma ts from rfl,
    splitComma_joinComma ts hne (fun t ht => (h t ht).2.1),
    map_trim_of_trimmed ts (fun t ht => (h t ht).2.2)]

/-- C8 counterexample: the claim as stated also quantifies over the
empty list (all of whose elements vacuously satisfy the constraints),
and there the round trip fails: storing `[]` stores the empty string,
and reading it back yields `[""]`, not `[]`. -/
theorem targets_roundtrip_nil_counterexample :
    (∀ t ∈ ([] : List Str), t ≠ [] ∧ ',' ∉ t ∧ trimStr t = t)
      ∧ getTargets (setTargets []) ≠ [] :=
  ⟨by simp, by decide⟩

theorem targets_roundtrip_witness :
    getTargets (setTargets ["10.0.0.1:9000".toList, "10.0.0.2:80".toList])
      = ["10.0.0.1:9000".toList, "10.0.0.2:80".toList] :=
  targets_roundtrip _ (by decide) (by decide)

/-- C9: every payload submitted by `handleAddHost` (single or bulk mode)
has a non-empty `target` — an empty target input becomes
`"127.0.0.1:8080"` — sends an empty `redirect_to` as `null`, and sends
an `access_list_id` of `0` as `null`. -/
theorem handleAddHost_payload (bulkMode : Bool) (bulkDomains : Str)
    (f : NewHostForm) (p : HostPayload)
    (hp : p ∈ handleAddHost bulkMode bulkDomains f) :
    p.target ≠ []
      ∧ (f.target = [] → p.target = "127.0.0.1:8080".toList)
      ∧ (f.redirect_to = [] → p.redirect_to = none)
      ∧ (f.access_list_id = some 0 → p.access_list_id = none) := by
  have hmk : ∃ d, p = mkHostPayload f d := by
    cases bulkMode with
    | true =>
      simp only [handleAddHost, if_pos, List.mem_map] at hp
      obtain ⟨d, -, hd⟩ := hp
      exact ⟨d, hd.symm⟩
    | false =>
      by_cases hd : f.domain = []
      · simp [handleAddHost, hd] at hp
      · simp only [handleAddHost, Bool.false_eq_true, if_false, hd, if_neg,
          not_false_iff, List.mem_singleton] at hp
        exact ⟨f.domain, hp⟩
  obtain ⟨d, rfl⟩ := hmk
  refine ⟨?_, ?_, ?_, ?_⟩
  · by_cases ht : f.target = [] <;> simp [mkHostPayload, ht]
  · intro ht; simp [mkHostPayload, ht]
  · intro hr; simp [mkHostPayload, hr]
  · intro ha; simp [mkHostPayload, ha]

theorem handleAddHost_payload_witness :
    (mkHostPayload
        { domain := "a.test".toList, target := [], scheme := "http".toList,
          ssl_forced := false, verify_ssl := true, upstream_sni := [],
          redirect_to := [], redirect_status := 301,
          access_list_id := some 0 } "a.test".toList).target
        = "127.0.0.1:8080".toList
      ∧ (mkHostPayload
        { domain := "a.test".toList, target := [], scheme := "http".toList,
          ssl_forced := false, verify_ssl := true, upstream_sni := [],
          redirect_to := [], redirect_status := 301,
          access_list_id := some 0 } "a.test".toList).redirect_to = none
      ∧ (mkHostPayload
        { domain := "a.test".toList, target := [], scheme := "http".toList,
          ssl_forced := false, verify_ssl := true, upstream_sni := [],
          redirect_to := [], redirect_status := 301,
          access_list_id := some 0 } "a.test".toList).access_list_id = none := by
  have h := handleAddHost_payload false []
    { domain := "a.test".toList, target := [], scheme := "http".toList,
      ssl_forced := false, verify_ssl := true, upstream_sni := [],
      redirect_to := [], redirect_status := 301, access_list_id := some 0 }
    (mkHostPayload
      { domain := "a.test".toList, target := [], scheme := "http".toList,
        ssl_forced := false, verify_ssl := true, upstream_sni := [],
        redirect_to := [], redirect_status := 301, access_list_id := some 0 }
      "a.test".toList)
    (by decide)
  exact ⟨h.2.1 rfl, h.2.2.1 rfl, h.2.2.2 rfl⟩

/-- C10: a 401 response removes the stored token and throws
`ApiError 401`; any other non-OK status throws an `ApiError` carrying
that status; a 204 response yields `null`; and a non-null value is
produced only when the response status is OK. -/
theorem apiRequest_status_handling (token : Option Str)
    (res : FetchResponse) :
    (res.status = 401 →
        apiRequest token res = (none, Except.error ⟨401, "Unauthorized".toList⟩))
      ∧ (res.status ≠ 401 → resOk res.status = false →
        (apiRequest token res).2 = Except.error ⟨res.status, res.statusText⟩)
      ∧ (res.status = 204 → (apiRequest token res).2 = Except.ok ApiValue.null)
      ∧ (∀ v, (apiRequest token res).2 = Except.ok v → v ≠ ApiValue.null →
        resOk res.status = true) := by
  refine ⟨fun h => by simp [apiRequest, h], fun h hok => ?_, fun h => ?_, ?_⟩
  · simp [apiRequest, h, hok]
  · have h401 : res.status ≠ 401 := by rw [h]; decide
    unfold apiRequest
    rw [h]
    simp [resOk]
  · intro v hv hnull
    by_cases h401 : res.status = 401
    · simp [apiRequest, h401] at hv
    · by_cases hok : resOk res.status
      · exact hok
      · simp [apiRequest, h401, hok] at hv

theorem apiRequest_status_handling_witness :
    apiRequest (some "tok".toList)
        { status := 401, statusText := "Unauthorized".toList,
          contentType := none, body := [] }
        = (none, Except.error ⟨401, "Unauthorized".toList⟩)
      ∧ (apiRequest (some "tok".toList)
        { status := 500, statusText := "Internal Server Error".toList,
          contentType := none, body := [] }).2
        = Except.error ⟨500, "Internal Server Error".toList⟩
      ∧ (apiRequest (some "tok".toList)
        { status := 204, statusText := "No Content".toList,
          contentType := none, body := [] }).2 = Except.ok ApiValue.null := by
  refine ⟨(apiRequest_status_handling _ _).1 rfl,
    (apiRequest_status_handling _ _).2.1 (by decide) (by decide),
    (apiRequest_status_handling _ _).2.2.1 rfl⟩

/-- C7 counterexample: `IssueCertDialog` submits a certificate-request
job for the wildcard domain `*.example.com` with no DNS-provider id when
the user leaves the validation method at HTTP-01 — the claim that no
wildcard-domain request is ever submitted without a DNS-provider id is
false on the code. -/
theorem wildcard_without_dns_counterexample :
    issueCertSubmit (some "*.example.com".toList)
        "admin@example.com".toList "http".toList
      = some { domain := "*.example.com".toList,
               email := "admin@example.com".toList, provider_id := none }
      ∧ List.isPrefixOf "*.".toList "*.example.com".toList := by decide

/-- C7 (amended): a submitted certificate-request job carries a
DNS-provider id exactly when a DNS provider (not HTTP-01) was selected,
and `CertificatesTab` submits its form verbatim; neither handler
enforces the wildcard/DNS-provider constraint, which is left to the
backend. -/
theorem cert_request_provider_id (d email providerId : Str)
    (nc : CertRequest) :
    (∀ req, issueCertSubmit (some d) email providerId = some req →
        req.domain = d ∧ req.email = email
          ∧ (req.provider_id = none ↔ providerId = "http".toList))
      ∧ (∀ req, certsTabSubmit nc = some req → req = nc) := by
  constructor
  · intro req hreq
    by_cases hd : d = []
    · simp [issueCertSubmit, hd] at hreq
    · by_cases he : email = []
      · simp [issueCertSubmit, hd, he] at hreq
      · simp only [issueCertSubmit, hd, if_neg, not_false_iff, he,
          Option.some.injEq] at hreq
        subst hreq
        refine ⟨rfl, rfl, ?_⟩
        by_cases hp : providerId = "http".toList <;> simp [hp]
  · intro req hreq
    by_cases h : nc.domain = [] ∨ nc.email = []
    · simp [certsTabSubmit, h] at hreq
    · simp only [certsTabSubmit, h, if_neg, not_false_iff,
        Option.some.injEq] at hreq
      exact hreq.symm

theorem cert_request_provider_id_witness :
    ¬(({ domain := "*.apps.test".toList
         email := "ops@apps.test".toList
         provider_id := some 5 } : CertRequest).provider_id = none) := by
  have h := (cert_request_provider_id "*.apps.test".toList
      "ops@apps.test".toList "5".toList
      { domain := "*.apps.test".toList
        email := "ops@apps.test".toList
        provider_id := some 5 }).1
    { domain := "*.apps.test".toList
      email := "ops@apps.test".toList
      provider_id := some 5 } (by decide)
  exact fun e => absurd (h.2.2.mp e) (by decide)

/-- C2: when a plain-HTTP request reaches the redirect filters of a host
with `ssl_forced` set and a non-empty `redirect_to`, the chain emits the
forced-HTTPS 301 redirect to `https://<host><original-path-and-query>`
(filter 4 runs before filter 5), not the configured redirect. -/
theorem force_https_wins_over_redirect (snap : Snapshot) (r : Request)
    (seed : Nat) (host : Host) (rd : Str)
    (hacme : isAcmeRequest r = false)
    (hhost : findHost snap (hostKeyOf r) = some host)
    (hacl : hostAclDecision snap host (effClientIp snap r) r.auth
      = AclDecision.proceed)
    (hforced : host.ssl_forced = true)
    (_hrd : host.redirect_to = some rd) (_hrdne : rd ≠ [])
    (hscheme : effScheme snap r = Scheme.http) :
    filterChain snap r seed
      = Outcome.redirect 301
        ("https://".toList ++ hostKeyOf r ++ r.path ++ r.query) := by
  simp [filterChain, hacme, hhost, hacl, hforced, hscheme]

theorem force_https_wins_over_redirect_witness :
    filterChain demoSnapshot demoRequestB 0
      = Outcome.redirect 301 "https://b.test/y?z=1".toList := by
  have h := force_https_wins_over_redirect demoSnapshot demoRequestB 0
    bTestHost "https://c.test".toList (by decide) (by decide) (by decide)
    (by decide) (by decide) (by decide) (by decide)
  rw [h]
  decide

/-- C6: a request whose effective upstream configuration (chosen
Location or the Host's default branch) has an empty upstream list is
answered 502 with the settings' custom error page, and the chain never
dispatches it to an upstream. -/
theorem empty_upstreams_502 (snap : Snapshot) (r : Request) (seed : Nat)
    (host : Host)
    (hacme : isAcmeRequest r = false)
    (hhost : findHost snap (hostKeyOf r) = some host)
    (hacl : hostAclDecision snap host (effClientIp snap r) r.auth
      = AclDecision.proceed)
    (hnof : ¬(host.ssl_forced = true ∧ effScheme snap r = Scheme.http))
    (hnor : host.redirect_to.getD [] = [])
    (hups : (effectiveRoute host r.path).1 = []) :
    filterChain snap r seed
        = Outcome.respond 502 (renderError snap.settings 502)
      ∧ ∀ e sch p q, filterChain snap r seed ≠ Outcome.forward e sch p q := by
  have hmain : filterChain snap r seed
      = Outcome.respond 502 (renderError snap.settings 502) := by
    rcases hR : effectiveRoute host r.path with ⟨ups, fpath, sch⟩
    rw [hR] at hups
    simp only at hups
    subst hups
    simp [filterChain, hacme, hhost, hacl, hnof, hnor, hR]
  exact ⟨hmain, fun e sch p q hx => by
    rw [hmain] at hx
    exact Outcome.noConfusion hx⟩

theorem empty_upstreams_502_witness :
    filterChain demoSnapshot demoRequestD 0
      = Outcome.respond 502 "<h1>502 Bad Gateway</h1>".toList := by
  have h := (empty_upstreams_502 demoSnapshot demoRequestD 0 emptyUpHost
    (by decide) (by decide) (by decide) (by decide) (by decide)
    (by decide)).1
  rw [h]
  decide

theorem evalIpRules_eq_find (rules : List IpRule) (ip : Nat) :
    evalIpRules rules ip
      = (rules.find? (fun x => ruleMatches x ip)).map IpRule.action := by
  induction rules with
  | nil => rfl
  | cons r rest ih =>
    by_cases h : ruleMatches r ip
    · simp [evalIpRules, h, List.find?_cons_of_pos]
    · simp [evalIpRules, h, List.find?_cons_of_neg, ih]

/-- C4: with a referenced access list, the IP rules are evaluated
top-to-bottom against the effective client IP and the first matching
rule decides (matching `deny` → 403 i.e. forbidden, matching `allow` →
proceed); no match with an `allow` rule present → 403; no IP rules →
the IP check is skipped; and a forbidden IP decision makes the filter
chain answer 403 with the error page. -/
theorem acl_first_match_decides (rules : List IpRule) (ip : Nat) :
    aclIpCheck [] ip = AclIpResult.skipped
      ∧ (∀ rule, rules.find? (fun x => ruleMatches x ip) = some rule →
        aclIpCheck rules ip
          = if rule.action = IpAction.deny then AclIpResult.forbidden
            else AclIpResult.proceed)
      ∧ (rules.find? (fun x => ruleMatches x ip) = none →
        (rules.any fun x => x.action = IpAction.allow) = true →
        aclIpCheck rules ip = AclIpResult.forbidden)
      ∧ (∀ snap r seed host acl,
        isAcmeRequest r = false →
        findHost snap (hostKeyOf r) = some host →
        host.access_list_id = some acl.id →
        findAcl snap acl.id = some acl →
        aclIpCheck acl.ips (effClientIp snap r) = AclIpResult.forbidden →
        filterChain snap r seed
          = Outcome.respond 403 (renderError snap.settings 403)) := by
  refine ⟨by simp [aclIpCheck], ?_, ?_, ?_⟩
  · intro rule hfind
    cases rules with
    | nil => simp at hfind
    | cons a as =>
      have heval : evalIpRules (a :: as) ip = some rule.action := by
        rw [evalIpRules_eq_find, hfind]
        rfl
      simp only [aclIpCheck, List.isEmpty_cons, Bool.false_eq_true, if_false]
      rw [heval]
      cases hact : rule.action <;> simp
  · intro hfind hany
    cases rules with
    | nil => simp at hany
    | cons a as =>
      have heval : evalIpRules (a :: as) ip = none := by
        rw [evalIpRules_eq_find, hfind]
        rfl
      simp only [aclIpCheck, List.isEmpty_cons, Bool.false_eq_true, if_false]
      rw [heval, hany]
      simp
  · intro snap r seed host acl hacme hhost href hfind hip
    have hdec : hostAclDecision snap host (effClientIp snap r) r.auth
        = AclDecision.forbidden := by
      simp [hostAclDecision, href, hfind, aclCheck, hip]
    simp [filterChain, hacme, hhost, hdec]

theorem acl_first_match_decides_witness :
    aclIpCheck [demoAllowRule] 167838211 = AclIpResult.proceed
      ∧ aclIpCheck [demoAllowRule] 3221225989 = AclIpResult.forbidden
      ∧ aclIpCheck [] 167838211 = AclIpResult.skipped := by
  refine ⟨?_, ?_, (acl_first_match_decides [] 167838211).1⟩
  · have h := (acl_first_match_decides [demoAllowRule] 167838211).2.1
      demoAllowRule (by decide)
    rw [h]
    decide
  · exact (acl_first_match_decides [demoAllowRule] 3221225989).2.2.1
      (by decide) (by decide)

/-- C3: SNI certificate selection returns the exact-match catalog entry
when present, otherwise the entry under the wildcard key (`*.b.c` for
`a.b.c`) when present, otherwise the pre-generated fallback; in
particular a catalog entry `*.example.com` is selected for
`a.example.com` but for neither `example.com` nor `a.b.example.com`,
which both fall back. -/
theorem selectCert_precedence (catalog : List (Str × TlsCert))
    (fb c : TlsCert) (s : Str) :
    (lookupCert catalog (caseFold s) = some c →
        selectCert catalog fb s = c)
      ∧ (∀ wk, lookupCert catalog (caseFold s) = none →
        wildcardKeyOf (caseFold s) = some wk →
        lookupCert catalog wk = some c →
        selectCert catalog fb s = c)
      ∧ (lookupCert catalog (caseFold s) = none →
        (wildcardKeyOf (caseFold s)).bind (lookupCert catalog) = none →
        selectCert catalog fb s = fb)
      ∧ (∀ c0,
        selectCert [("*.example.com".toList, c0)] fb "a.example.com".toList
            = c0
          ∧ selectCert [("*.example.com".toList, c0)] fb "example.com".toList
            = fb
          ∧ selectCert [("*.example.com".toList, c0)] fb
              "a.b.example.com".toList = fb) := by
  refine ⟨?_, ?_, ?_, ?_⟩
  · intro h
    simp [selectCert, h]
  · intro wk h hw hl
    simp [selectCert, h, hw, hl]
  · intro h hb
    cases hw : wildcardKeyOf (caseFold s) with
    | none => simp [selectCert, h, hw]
    | some wk =>
      rw [hw] at hb
      simp only [Option.some_bind] at hb
      simp [selectCert, h, hw, hb]
  · intro c0
    refine ⟨rfl, rfl, rfl⟩

theorem selectCert_precedence_witness :
    selectCert [("a.test".toList, ⟨"chainA".toList, "keyA".toList⟩)]
        ⟨"fbchain".toList, "fbkey".toList⟩ "A.test".toList
      = ⟨"chainA".toList, "keyA".toList⟩ :=
  (selectCert_precedence _ _ _ _).1 (by decide)

theorem aclExists_set_hosts (s : Store) (hl : List Host) (id : Nat) :
    aclExists { s with hosts := hl } id = aclExists s id := rfl

theorem storeConsistent_empty : storeConsistent emptyStore := by
  intro h hm id hid
  simp [emptyStore] at hm

theorem applyMutation_preserves_consistent (s : Store) (m : AdminMutation)
    (hs : storeConsistent s) : storeConsistent (applyMutation s m) := by
  cases m with
  | upsertHost h =>
    by_cases hv : hostRefValid s h = true
    · have hres : applyMutation s (AdminMutation.upsertHost h)
          = { s with hosts := (h :: s.hosts.filter
              (fun x => !(caseFold x.domain = caseFold h.domain))) } := by
        simp [applyMutation, hv]
      rw [hres]
      intro x hx id hid
      rw [aclExists_set_hosts]
      rcases List.mem_cons.mp hx with rfl | hx2
      · simp only [hostRefValid, hid] at hv
        exact hv
      · exact hs x (List.mem_of_mem_filter hx2) id hid
    · have hres : applyMutation s (AdminMutation.upsertHost h) = s := by
        simp [applyMutation, hv]
      rw [hres]
      exact hs
  | deleteHost d =>
    intro x hx id hid
    exact hs x (List.mem_of_mem_filter hx) id hid
  | createAccessList a =>
    intro x hx id hid
    have hold := hs x hx id hid
    simp only [aclExists, List.any_eq_true, decide_eq_true_eq] at hold ⊢
    obtain ⟨al, hal, halid⟩ := hold
    by_cases hida : al.id = a.id
    · exact ⟨a, by simp [applyMutation], by rw [← hida]; exact halid⟩
    · refine ⟨al, ?_, halid⟩
      simp only [applyMutation, List.mem_cons]
      right
      exact List.mem_filter.mpr ⟨hal, by simp [hida]⟩
  | deleteAccessList did =>
    by_cases hrefd : aclReferenced s did = true
    · have hres : applyMutation s (AdminMutation.deleteAccessList did) = s := by
        simp [applyMutation, hrefd]
      rw [hres]
      exact hs
    · have hres : applyMutation s (AdminMutation.deleteAccessList did)
          = { s with access_lists :=
              (s.access_lists.filter (fun x => !(x.id = did))) } := by
        simp [applyMutation, hrefd]
      rw [hres]
      intro x hx id hid
      have hold := hs x hx id hid
      have hne : ¬(id = did) := by
        intro e
        subst e
        apply hrefd
        simp only [aclReferenced, List.any_eq_true, decide_eq_true_eq]
        exact ⟨x, hx, hid⟩
      simp only [aclExists, List.any_eq_true, decide_eq_true_eq] at hold ⊢
      obtain ⟨al, hal, halid⟩ := hold
      refine ⟨al, List.mem_filter.mpr ⟨hal, ?_⟩, halid⟩
      simp [halid]
      exact hne

theorem store_to_snapshot_consistent (s : Store)
    (tokens : List (Str × Str)) (hs : storeConsistent s) :
    snapshotConsistent (reconcile s tokens) := by
  intro h hm id hid
  have hex := hs h hm id hid
  simp only [aclExists, List.any_eq_true, decide_eq_true_eq] at hex
  obtain ⟨al, hal, halid⟩ := hex
  rw [findAcl, List.find?_isSome]
  exact ⟨al, hal, by simp [halid]⟩

/-- C5: every snapshot built by `reconcile()` from a store reached by
any sequence of admin mutations is referentially consistent — for every
host whose access-list reference is set, the snapshot's
id → Access-List index resolves that id — so no reader of an installed
snapshot ever observes a host whose referenced access list is absent. -/
theorem reconcile_snapshot_consistent (ms : List AdminMutation)
    (tokens : List (Str × Str)) :
    snapshotConsistent (reconcile (ms.foldl applyMutation emptyStore) tokens) := by
  apply store_to_snapshot_consistent
  have hgen : ∀ (l : List AdminMutation) (s : Store), storeConsistent s →
      storeConsistent (l.foldl applyMutation s) := by
    intro l
    induction l with
    | nil => exact fun s hs => hs
    | cons m rest ih =>
      exact fun s hs => ih _ (applyMutation_preserves_consistent s m hs)
  exact hgen ms emptyStore storeConsistent_empty
